import Mathlib

/-!
Shallow embedding of `app/agents/base_agents.py` (SportBot backend).

The module defines three Langroid tools (ProductSearchTool, PromotionSearchTool,
UserHistoryTool), three sub-agents (KnowledgeAgent, SalesAgent, AnalyticsAgent)
and an orchestrator (MainBaekhoAgent).  External collaborators (Qdrant vector
search, the embedding service, the relational chat history controllers and the
LLM) are modelled as an explicit environment of fallible functions returning
`Except String _`; a Python exception raised by a collaborator is an
`Except.error` carrying the exception text `str(e)`.

Python strings are modelled by Lean `String`; `s.lower()` is modelled by an
ASCII character-wise lowering, `needle in haystack` by an executable substring
check on the character lists, and `s[:n]` by taking the first `n` characters.
-/

namespace SportBot

/-- Model of Python `str.lower()` (character-wise ASCII lowering). -/
def pyLower (s : String) : String :=
  String.mk (s.data.map Char.toLower)

/-- `hasPrefixChars p l` : the character list `p` is an initial segment of `l`. -/
def hasPrefixChars : List Char → List Char → Bool
  | [], _ => true
  | _ :: _, [] => false
  | a :: as, b :: bs => a == b && hasPrefixChars as bs

/-- `hasSubstringChars p l` : `p` occurs contiguously inside `l`. -/
def hasSubstringChars (p : List Char) : List Char → Bool
  | [] => hasPrefixChars p []
  | c :: cs => hasPrefixChars p (c :: cs) || hasSubstringChars p cs

/-- Model of Python `needle in haystack` for strings. -/
def pyIn (needle haystack : String) : Bool :=
  hasSubstringChars needle.data haystack.data

/-- Model of Python slicing `s[:n]` (first `n` characters). -/
def pySlice (s : String) (n : Nat) : String :=
  String.mk (s.data.take n)

/-- Model of Python `s.startswith(p)`. -/
def pyStartsWith (s p : String) : Bool :=
  hasPrefixChars p.data s.data

/-- A value appearing in a Qdrant filter dict (the code uses strings and `True`). -/
inductive FilterVal where
  | str (s : String)
  | bool (b : Bool)
deriving DecidableEq

/-- A Qdrant search hit: `{"payload": {...}, "score": s}`. Payload values are
modelled as display strings (they are only ever formatted into text). -/
structure SearchResult where
  payload : List (String × String)
  score : Float

/-- A chat record as returned by `ChatController.get_chats_by_usuario`. -/
structure ChatRecord where
  id : Nat

/-- A message record as returned by `MensajeController.get_mensajes_by_chat`. -/
structure MensajeRecord where
  rol : String
  contenido : String
  fechaCreacion : Option String

/-- The external collaborators used by the agents.  Each call may raise a
Python exception, modelled as `Except.error` with the exception text. -/
structure Env where
  encode_query : String → Except String (List Float)
  search_similar : List Float → Nat → List (String × FilterVal) →
    Except String (List SearchResult)
  get_chats_by_usuario : Nat → Except String (List ChatRecord)
  get_mensajes_by_chat : Nat → Nat → Nat → Except String (List MensajeRecord)
  llm_response : String → Except String String

/-- Python `payload.get(key, default)` on an association-list payload. -/
def pyGet (d : List (String × String)) (k dflt : String) : String :=
  match d.find? (fun p => p.1 == k) with
  | some p => p.2
  | none => dflt

/-! ### ProductSearchTool -/

/-- The fields of `ProductSearchTool` (`query`, optional `category`,
`max_results` defaulting to 5). -/
structure ProductSearchArgs where
  query : String
  category : Option String := none
  max_results : Nat := 5

/-- The collaborator calls made inside `ProductSearchTool.handle`'s `try`
block: encode the query, build the optional category filter, search Qdrant.
An `Except.error` is a Python exception escaping a collaborator. -/
def product_search_collab (env : Env) (t : ProductSearchArgs) :
    Except String (List SearchResult) := do
  let query_embedding ← env.encode_query t.query
  let filters : List (String × FilterVal) :=
    match t.category with
    | some c => [("categoria", FilterVal.str c)]
    | none => []
  env.search_similar query_embedding t.max_results filters

/-- One formatted product entry (the dict built per result; `str(...)`
rendering of the Python dict is abstracted to a key/value listing). -/
def format_product (r : SearchResult) : String :=
  String.intercalate ", "
    [ "nombre: " ++ pyGet r.payload "nombre" "N/A"
    , "descripcion: " ++ pyGet r.payload "descripcion" "N/A"
    , "precio: " ++ pyGet r.payload "precio" "N/A"
    , "categoria: " ++ pyGet r.payload "categoria" "N/A"
    , "disponible: " ++ pyGet r.payload "disponible" "True"
    , "stock: " ++ pyGet r.payload "stock" "0"
    , "relevance_score: " ++ toString r.score ]

/-- `ProductSearchTool.handle`: on any collaborator exception return the
fixed Spanish error string; on an empty result set return the literal
no-results message; otherwise format the hits. -/
def product_search_handle (env : Env) (t : ProductSearchArgs) : String :=
  match product_search_collab env t with
  | Except.error e => "Error ejecutando búsqueda: " ++ e
  | Except.ok results =>
    if results.isEmpty then
      "No se encontraron productos que coincidan con tu búsqueda."
    else
      "[" ++ String.intercalate "; " (results.map format_product) ++ "]"

/-! ### PromotionSearchTool -/

/-- The neutral query vector `[0.0] * 384` used to list promotions by filter
alone. -/
def neutral_vector : List Float := List.replicate 384 0.0

/-- The filter dict `{"type": "promocion", "activa": True}`. -/
def promotion_filters : List (String × FilterVal) :=
  [("type", FilterVal.str "promocion"), ("activa", FilterVal.bool true)]

/-- The collaborator call made inside `PromotionSearchTool.handle`'s `try`
block: a similarity search with the neutral vector, limit 10, promotion
filters. -/
def promotion_search_collab (env : Env) : Except String (List SearchResult) :=
  env.search_similar neutral_vector 10 promotion_filters

/-- One formatted promotion entry. -/
def format_promotion (r : SearchResult) : String :=
  String.intercalate ", "
    [ "descripcion: " ++ pyGet r.payload "descripcion" "N/A"
    , "descuento: " ++ pyGet r.payload "descuento" "0"
    , "productos: " ++ pyGet r.payload "productos_nombres" "N/A"
    , "fecha_fin: " ++ pyGet r.payload "fecha_fin" "N/A" ]

/-- `PromotionSearchTool.handle`. -/
def promotion_search_handle (env : Env) : String :=
  match promotion_search_collab env with
  | Except.error e => "Error obteniendo promociones: " ++ e
  | Except.ok results =>
    if results.isEmpty then
      "No hay promociones activas en este momento."
    else
      "[" ++ String.intercalate "; " (results.map format_promotion) ++ "]"

/-! ### UserHistoryTool -/

/-- The fields of `UserHistoryTool` (`user_id`, `limit` defaulting to 10). -/
structure UserHistoryArgs where
  user_id : Nat
  limit : Nat := 10

/-- The collaborator calls made inside `UserHistoryTool.handle`'s `try`
block: fetch the user's chats; `none` means the user has no chats; otherwise
fetch up to `limit` messages of the first (most recent) chat. -/
def user_history_collab (env : Env) (t : UserHistoryArgs) :
    Except String (Option (List MensajeRecord)) := do
  let user_chats ← env.get_chats_by_usuario t.user_id
  match user_chats with
  | [] => pure none
  | latest_chat :: _ => do
    let recent_messages ← env.get_mensajes_by_chat latest_chat.id t.limit 0
    pure (some recent_messages)

/-- One formatted history entry; `msg.contenido[:200]` truncates the body. -/
def format_history (m : MensajeRecord) : String :=
  String.intercalate ", "
    [ "rol: " ++ m.rol
    , "contenido: " ++ pySlice m.contenido 200
    , "fecha: " ++ (match m.fechaCreacion with | some f => f | none => "None") ]

/-- `UserHistoryTool.handle`. -/
def user_history_handle (env : Env) (t : UserHistoryArgs) : String :=
  match user_history_collab env t with
  | Except.error e => "Error obteniendo historial: " ++ e
  | Except.ok none => "Usuario sin historial previo"
  | Except.ok (some recent_messages) =>
    "[" ++ String.intercalate "; " (recent_messages.map format_history) ++ "]"

/-! ### KnowledgeAgent -/

/-- Which tool a `handle_message_fallback` call delegated to, with the
arguments it was constructed with. -/
inductive ToolInvocation where
  | promotion_search
  | product_search (query : String) (category : Option String) (max_results : Nat)
deriving DecidableEq

/-- The routing condition of `KnowledgeAgent.handle_message_fallback`:
`"promocion" in msg.lower() or "descuento" in msg.lower() or "oferta" in msg.lower()`. -/
def knowledge_keywords_match (msg : String) : Bool :=
  pyIn "promocion" (pyLower msg) || pyIn "descuento" (pyLower msg) ||
    pyIn "oferta" (pyLower msg)

/-- `KnowledgeAgent.handle_message_fallback`, instrumented with the list of
tool invocations it performs.  The tools never raise (each catches its own
exceptions), so the enclosing `except` branch of the agent is unreachable. -/
def knowledge_handle_message_fallback (env : Env) (msg : String) :
    String × List ToolInvocation :=
  if knowledge_keywords_match msg then
    (promotion_search_handle env, [ToolInvocation.promotion_search])
  else
    (product_search_handle env { query := msg },
      [ToolInvocation.product_search msg none 5])

/-! ### SalesAgent -/

/-- `SalesAgent.handle_message_fallback`: the `if/elif` chain appends at most
one complementary-product suggestion; a non-empty list is joined after the
fixed prefix, an empty one yields the filler string. -/
def sales_handle_message_fallback (msg : String) : String :=
  let recommendations : List String :=
    if pyIn "uniforme" (pyLower msg) then
      ["¿Has considerado también un cinturón o protecciones?"]
    else if pyIn "cinturon" (pyLower msg) then
      ["¿Te interesaría ver nuestros uniformes a juego?"]
    else if pyIn "proteccion" (pyLower msg) then
      ["¿Necesitas también guantes o espinilleras?"]
    else []
  if recommendations.isEmpty then
    "Continuando con la conversación..."
  else
    "Sugerencias adicionales: " ++ String.intercalate " " recommendations

/-! ### AnalyticsAgent (value model)

`self.conversation_metrics` is a dict with an integer counter and two lists.
This value model passes the metrics state explicitly; the reference/aliasing
behaviour of `dict.copy()` is modelled separately below. -/

/-- The `conversation_metrics` structure. -/
structure ConversationMetrics where
  total_messages : Nat
  user_satisfaction : List String
  conversion_indicators : List String
deriving DecidableEq

/-- The metrics state set up in `AnalyticsAgent.__init__`. -/
def initial_metrics : ConversationMetrics :=
  { total_messages := 0, user_satisfaction := [], conversion_indicators := [] }

/-- `positive_indicators` from `track_conversation`. -/
def positive_indicators : List String :=
  ["gracias", "perfecto", "excelente", "me gusta"]

/-- `conversion_indicators` keyword list from `track_conversation`. -/
def conversion_keywords : List String :=
  ["comprar", "precio", "disponible", "stock"]

set_option linter.unusedVariables false in
/-- `AnalyticsAgent.track_conversation(user_msg, bot_response)`:
increments the counter, appends `"positive"` on a satisfaction keyword hit,
appends `user_msg[:50]` on a conversion keyword hit.  `bot_response` is
accepted but never read. -/
def track_conversation (m : ConversationMetrics) (user_msg bot_response : String) :
    ConversationMetrics :=
  let m1 := { m with total_messages := m.total_messages + 1 }
  let m2 :=
    if positive_indicators.any (fun indicator => pyIn indicator (pyLower user_msg)) then
      { m1 with user_satisfaction := m1.user_satisfaction ++ ["positive"] }
    else m1
  if conversion_keywords.any (fun indicator => pyIn indicator (pyLower user_msg)) then
    { m2 with conversion_indicators := m2.conversion_indicators ++ [pySlice user_msg 50] }
  else m2

/-- Repeated `track_conversation` calls from a starting state. -/
def run_track (m : ConversationMetrics) (calls : List (String × String)) :
    ConversationMetrics :=
  calls.foldl (fun acc c => track_conversation acc c.1 c.2) m

/-! ### AnalyticsAgent (reference model for `get_metrics`)

Python's `dict.copy()` is a shallow copy: the copied dict is a fresh object
(so rebinding its top-level keys cannot touch the original) but the two list
values are shared references.  To state this, list objects live on a heap
addressed by `Nat` and the metrics dict stores references to them. -/

/-- A heap of Python list objects. -/
structure PyHeap where
  lists : Nat → List String

/-- The `conversation_metrics` dict as an object: an integer value and two
references to list objects on the heap. -/
structure MetricsDict where
  total_messages : Nat
  user_satisfaction_ref : Nat
  conversion_indicators_ref : Nat
deriving DecidableEq

/-- The dict built in `AnalyticsAgent.__init__` (two fresh, distinct lists). -/
def analytics_init_dict : MetricsDict :=
  { total_messages := 0, user_satisfaction_ref := 0, conversion_indicators_ref := 1 }

/-- The heap right after `AnalyticsAgent.__init__`: both lists empty. -/
def analytics_init_heap : PyHeap := { lists := fun _ => [] }

/-- `dict.copy()`: a new dict object with the same entries — the same integer
and the same list references. -/
def dict_copy (d : MetricsDict) : MetricsDict := d

/-- `AnalyticsAgent.get_metrics`: returns `self.conversation_metrics.copy()`
and leaves the agent's own dict and the heap untouched. -/
def get_metrics (d : MetricsDict) (h : PyHeap) : MetricsDict × (MetricsDict × PyHeap) :=
  (dict_copy d, (d, h))

/-- `list.append(x)` through a reference: mutates the heap cell in place. -/
def heap_append (h : PyHeap) (ref : Nat) (x : String) : PyHeap :=
  { lists := fun r => if r = ref then h.lists r ++ [x] else h.lists r }

/-- What the agent observes as its metrics: dereference both lists. -/
def metrics_view (d : MetricsDict) (h : PyHeap) : ConversationMetrics :=
  { total_messages := d.total_messages
  , user_satisfaction := h.lists d.user_satisfaction_ref
  , conversion_indicators := h.lists d.conversion_indicators_ref }

/-! ### MainBaekhoAgent -/

/-- The f-string prompt assembled in `handle_user_message`. -/
def context_prompt (message knowledge_response sales_response : String) : String :=
  "\n            Consulta del usuario: " ++ message ++
  "\n            \n            Información de productos encontrada:\n            " ++
  knowledge_response ++
  "\n            \n            Recomendaciones de ventas:\n            " ++
  sales_response ++
  "\n            \n            Basándote en esta información, proporciona una respuesta completa y útil al usuario.\n            Mantén el tono amigable y comercial de BaekhoBot 🥋.\n            "

/-- The fixed apology returned by `handle_user_message`'s `except` branch. -/
def apology_message : String :=
  "Lo siento, hubo un error procesando tu consulta. Por favor intenta de nuevo."

/-- `MainBaekhoAgent.handle_user_message`, with the analytics metrics passed
explicitly.  Tracking happens first with an empty response; the knowledge and
sales fallbacks never raise; the single fallible step left in the `try` block
is the LLM call.  On its failure the first tracking call has already mutated
the metrics and the apology is returned. -/
def handle_user_message (env : Env) (metrics : ConversationMetrics)
    (message : String) : String × ConversationMetrics :=
  let m1 := track_conversation metrics message ""
  let knowledge_response := (knowledge_handle_message_fallback env message).1
  let sales_response := sales_handle_message_fallback message
  let prompt := context_prompt message knowledge_response sales_response
  match env.llm_response prompt with
  | Except.error _ => (apology_message, m1)
  | Except.ok final_response =>
    (final_response, track_conversation m1 message final_response)

/-! ### Sample environments (used by witnesses) -/

/-- A healthy environment: every collaborator succeeds. -/
def sample_env : Env :=
  { encode_query := fun _ => Except.ok (List.replicate 384 0.0)
  , search_similar := fun _ _ _ => Except.ok []
  , get_chats_by_usuario := fun _ => Except.ok []
  , get_mensajes_by_chat := fun _ _ _ => Except.ok []
  , llm_response := fun _ => Except.ok "¡Hola! Soy BaekhoBot." }

/-- A failing environment: every collaborator raises. -/
def failing_env : Env :=
  { encode_query := fun _ => Except.error "connection refused"
  , search_similar := fun _ _ _ => Except.error "qdrant timeout"
  , get_chats_by_usuario := fun _ => Except.error "db unavailable"
  , get_mensajes_by_chat := fun _ _ _ => Except.error "db unavailable"
  , llm_response := fun _ => Except.error "llm quota exceeded" }

/-- The invariant maintained by the analytics counters: each list has grown
at most once per tracked message, and conversion snippets are truncated. -/
def metrics_ok (m : ConversationMetrics) : Bool :=
  decide (m.user_satisfaction.length ≤ m.total_messages)
  && decide (m.conversion_indicators.length ≤ m.total_messages)
  && m.conversion_indicators.all (fun s => decide (s.length ≤ 50))

/-! ### Helper lemmas -/

theorem hasPrefixChars_append (p q r : List Char) (h : hasPrefixChars p q = true) :
    hasPrefixChars p (q ++ r) = true := by
  induction p generalizing q with
  | nil => rfl
  | cons a as ih =>
    cases q with
    | nil => simp [hasPrefixChars] at h
    | cons b bs =>
      simp only [hasPrefixChars, Bool.and_eq_true] at h
      simp only [List.cons_append, hasPrefixChars, Bool.and_eq_true]
      exact ⟨h.1, ih bs h.2⟩

theorem pySlice_length_le (s : String) (n : Nat) : (pySlice s n).length ≤ n := by
  simp only [pySlice, String.length]
  exact le_trans (Nat.le_of_eq (List.length_take _ _)) (Nat.min_le_left _ _)

theorem track_conversation_total (m : ConversationMetrics) (u b : String) :
    (track_conversation m u b).total_messages = m.total_messages + 1 := by
  unfold track_conversation
  by_cases h1 : positive_indicators.any (fun indicator => pyIn indicator (pyLower u)) = true <;>
    by_cases h2 : conversion_keywords.any (fun indicator => pyIn indicator (pyLower u)) = true <;>
      simp [h1, h2]

theorem track_conversation_satisfaction (m : ConversationMetrics) (u b : String) :
    (track_conversation m u b).user_satisfaction
      = (if positive_indicators.any (fun indicator => pyIn indicator (pyLower u))
         then m.user_satisfaction ++ ["positive"] else m.user_satisfaction) := by
  unfold track_conversation
  by_cases h1 : positive_indicators.any (fun indicator => pyIn indicator (pyLower u)) = true <;>
    by_cases h2 : conversion_keywords.any (fun indicator => pyIn indicator (pyLower u)) = true <;>
      simp [h1, h2]

theorem track_conversation_conversion (m : ConversationMetrics) (u b : String) :
    (track_conversation m u b).conversion_indicators
      = (if conversion_keywords.any (fun indicator => pyIn indicator (pyLower u))
         then m.conversion_indicators ++ [pySlice u 50] else m.conversion_indicators) := by
  unfold track_conversation
  by_cases h1 : positive_indicators.any (fun indicator => pyIn indicator (pyLower u)) = true <;>
    by_cases h2 : conversion_keywords.any (fun indicator => pyIn indicator (pyLower u)) = true <;>
      simp [h1, h2]

theorem metrics_ok_track (m : ConversationMetrics) (u b : String)
    (hm : metrics_ok m = true) : metrics_ok (track_conversation m u b) = true := by
  simp only [metrics_ok, Bool.and_eq_true, decide_eq_true_eq] at hm ⊢
  obtain ⟨⟨hus, hci⟩, hall⟩ := hm
  rw [track_conversation_total, track_conversation_satisfaction,
    track_conversation_conversion]
  refine ⟨⟨?_, ?_⟩, ?_⟩
  · by_cases h1 : positive_indicators.any (fun indicator => pyIn indicator (pyLower u)) = true <;>
      simp [h1] <;> omega
  · by_cases h2 : conversion_keywords.any (fun indicator => pyIn indicator (pyLower u)) = true <;>
      simp [h2] <;> omega
  · by_cases h2 : conversion_keywords.any (fun indicator => pyIn indicator (pyLower u)) = true <;>
      simp [h2, hall]
    exact pySlice_length_le u 50

theorem metrics_ok_run_track (m : ConversationMetrics) (calls : List (String × String))
    (hm : metrics_ok m = true) : metrics_ok (run_track m calls) = true := by
  induction calls generalizing m with
  | nil => exact hm
  | cons c cs ih => exact ih _ (metrics_ok_track m c.1 c.2 hm)

/-! ### Claim theorems -/

/-- C4: every `track_conversation(user_msg, bot_response)` call increments
`total_messages` by exactly 1; `"positive"` is appended to
`user_satisfaction` iff the lowercased `user_msg` contains one of
`gracias`, `perfecto`, `excelente`, `me gusta`; and the at-most-50-character
snippet `user_msg[:50]` is appended to `conversion_indicators` iff the
lowercased `user_msg` contains one of `comprar`, `precio`, `disponible`,
`stock`. -/
theorem track_conversation_updates_counters (m : ConversationMetrics) (u b : String) :
    (track_conversation m u b).total_messages = m.total_messages + 1
    ∧ ((track_conversation m u b).user_satisfaction = m.user_satisfaction ++ ["positive"]
        ↔ (["gracias", "perfecto", "excelente", "me gusta"].any
            (fun indicator => pyIn indicator (pyLower u))) = true)
    ∧ ((track_conversation m u b).user_satisfaction = m.user_satisfaction
        ↔ (["gracias", "perfecto", "excelente", "me gusta"].any
            (fun indicator => pyIn indicator (pyLower u))) = false)
    ∧ ((track_conversation m u b).conversion_indicators
          = m.conversion_indicators ++ [pySlice u 50]
        ↔ (["comprar", "precio", "disponible", "stock"].any
            (fun indicator => pyIn indicator (pyLower u))) = true)
    ∧ ((track_conversation m u b).conversion_indicators = m.conversion_indicators
        ↔ (["comprar", "precio", "disponible", "stock"].any
            (fun indicator => pyIn indicator (pyLower u))) = false)
    ∧ (pySlice u 50).length ≤ 50 := by
  have hpos : (["gracias", "perfecto", "excelente", "me gusta"].any
      (fun indicator => pyIn indicator (pyLower u)))
      = positive_indicators.any (fun indicator => pyIn indicator (pyLower u)) := rfl
  have hconv : (["comprar", "precio", "disponible", "stock"].any
      (fun indicator => pyIn indicator (pyLower u)))
      = conversion_keywords.any (fun indicator => pyIn indicator (pyLower u)) := rfl
  rw [track_conversation_total, track_conversation_satisfaction,
    track_conversation_conversion, hpos, hconv]
  refine ⟨rfl, ?_, ?_, ?_, ?_, pySlice_length_le u 50⟩ <;>
    by_cases h : positive_indicators.any (fun indicator => pyIn indicator (pyLower u)) = true <;>
      by_cases h2 : conversion_keywords.any (fun indicator => pyIn indicator (pyLower u)) = true <;>
        simp [h, h2]

/-- C9: `track_conversation` never inspects its `bot_response` argument: for
any starting metrics state and user message, any two response values yield
the identical resulting metrics state. -/
theorem track_conversation_ignores_bot_response (m : ConversationMetrics)
    (u b1 b2 : String) : track_conversation m u b1 = track_conversation m u b2 := rfl

/-- C10: from the freshly initialised metrics, after any sequence of
`track_conversation` calls, `total_messages` bounds the lengths of both the
`user_satisfaction` and `conversion_indicators` lists, and every recorded
conversion snippet has at most 50 characters. -/
theorem analytics_metrics_invariant (calls : List (String × String)) :
    (run_track initial_metrics calls).user_satisfaction.length
        ≤ (run_track initial_metrics calls).total_messages
    ∧ (run_track initial_metrics calls).conversion_indicators.length
        ≤ (run_track initial_metrics calls).total_messages
    ∧ (run_track initial_metrics calls).conversion_indicators.all
        (fun s => decide (s.length ≤ 50)) = true := by
  have h := metrics_ok_run_track initial_metrics calls (by decide)
  simp only [metrics_ok, Bool.and_eq_true, decide_eq_true_eq] at h
  exact ⟨h.1.1, h.1.2, h.2⟩

/-- C1: `KnowledgeAgent.handle_message_fallback` performs exactly one tool
invocation per message: `PromotionSearchTool` when the lowercased message
contains `promocion`, `descuento` or `oferta`, and otherwise
`ProductSearchTool` constructed with the full raw message as the query
(default category `None`, default `max_results` 5), returning that tool's
output. -/
theorem knowledge_agent_routes_to_exactly_one_tool (env : Env) (msg : String) :
    (knowledge_handle_message_fallback env msg).2.length = 1
    ∧ ((pyIn "promocion" (pyLower msg) || pyIn "descuento" (pyLower msg) ||
          pyIn "oferta" (pyLower msg)) = true →
        (knowledge_handle_message_fallback env msg).2 = [ToolInvocation.promotion_search]
        ∧ (knowledge_handle_message_fallback env msg).1 = promotion_search_handle env)
    ∧ ((pyIn "promocion" (pyLower msg) || pyIn "descuento" (pyLower msg) ||
          pyIn "oferta" (pyLower msg)) = false →
        (knowledge_handle_message_fallback env msg).2
            = [ToolInvocation.product_search msg none 5]
        ∧ (knowledge_handle_message_fallback env msg).1
            = product_search_handle env { query := msg, category := none, max_results := 5 }) := by
  have hcond : knowledge_keywords_match msg
      = (pyIn "promocion" (pyLower msg) || pyIn "descuento" (pyLower msg) ||
          pyIn "oferta" (pyLower msg)) := rfl
  unfold knowledge_handle_message_fallback
  rw [hcond]
  by_cases h : (pyIn "promocion" (pyLower msg) || pyIn "descuento" (pyLower msg) ||
      pyIn "oferta" (pyLower msg)) = true <;> simp [h]

set_option maxRecDepth 10000 in
/-- C1 witness: a promotion-keyword message routes to the promotion tool, a
plain message routes to the product tool with itself as query. -/
theorem knowledge_agent_routing_witness :
    (knowledge_handle_message_fallback sample_env "¿Hay DESCUENTO hoy?").2
        = [ToolInvocation.promotion_search]
    ∧ (knowledge_handle_message_fallback sample_env "busco un balon").2
        = [ToolInvocation.product_search "busco un balon" none 5] :=
  ⟨((knowledge_agent_routes_to_exactly_one_tool sample_env "¿Hay DESCUENTO hoy?").2.1
      (by decide)).1,
    ((knowledge_agent_routes_to_exactly_one_tool sample_env "busco un balon").2.2
      (by decide)).1⟩

/-- C2: `SalesAgent.handle_message_fallback` returns the single suggestion
for the first matching keyword in the fixed order `uniforme`, `cinturon`,
`proteccion` (so exactly one suggestion is emitted even when several
keywords match), returns the neutral filler string when no keyword matches,
and the result carries the `Sugerencias adicionales:` prefix iff some
keyword matches. -/
theorem sales_agent_keyword_suggestions (msg : String) :
    (pyIn "uniforme" (pyLower msg) = true →
      sales_handle_message_fallback msg
        = "Sugerencias adicionales: ¿Has considerado también un cinturón o protecciones?")
    ∧ (pyIn "uniforme" (pyLower msg) = false → pyIn "cinturon" (pyLower msg) = true →
      sales_handle_message_fallback msg
        = "Sugerencias adicionales: ¿Te interesaría ver nuestros uniformes a juego?")
    ∧ (pyIn "uniforme" (pyLower msg) = false → pyIn "cinturon" (pyLower msg) = false →
        pyIn "proteccion" (pyLower msg) = true →
      sales_handle_message_fallback msg
        = "Sugerencias adicionales: ¿Necesitas también guantes o espinilleras?")
    ∧ (pyIn "uniforme" (pyLower msg) = false → pyIn "cinturon" (pyLower msg) = false →
        pyIn "proteccion" (pyLower msg) = false →
      sales_handle_message_fallback msg = "Continuando con la conversación...")
    ∧ (pyStartsWith (sales_handle_message_fallback msg) "Sugerencias adicionales:" = true
        ↔ (pyIn "uniforme" (pyLower msg) || pyIn "cinturon" (pyLower msg) ||
            pyIn "proteccion" (pyLower msg)) = true) := by
  unfold sales_handle_message_fallback
  by_cases h1 : pyIn "uniforme" (pyLower msg) = true <;>
    by_cases h2 : pyIn "cinturon" (pyLower msg) = true <;>
      by_cases h3 : pyIn "proteccion" (pyLower msg) = true <;>
        simp [h1, h2, h3] <;> decide

set_option maxRecDepth 10000 in
/-- C2 witness: the spec's own example (a belt query yields the matching
uniforms suggestion) and a no-keyword message yields the filler. -/
theorem sales_agent_suggestions_witness :
    sales_handle_message_fallback "Busco un cinturon negro"
      = "Sugerencias adicionales: ¿Te interesaría ver nuestros uniformes a juego?"
    ∧ sales_handle_message_fallback "hola"
      = "Continuando con la conversación..." :=
  ⟨(sales_agent_keyword_suggestions "Busco un cinturon negro").2.1 (by decide) (by decide),
    (sales_agent_keyword_suggestions "hola").2.2.2.1 (by decide) (by decide) (by decide)⟩

/-- C5: when the LLM call succeeds, `MainBaekhoAgent.handle_user_message`
applies `track_conversation` exactly twice — first with the empty response
string, then with the final LLM response — so `total_messages` grows by
exactly 2 for the turn. -/
theorem handle_user_message_tracks_twice (env : Env) (m : ConversationMetrics)
    (message r : String)
    (h : env.llm_response (context_prompt message
        (knowledge_handle_message_fallback env message).1
        (sales_handle_message_fallback message)) = Except.ok r) :
    (handle_user_message env m message).2
        = track_conversation (track_conversation m message "") message r
    ∧ (handle_user_message env m message).2.total_messages = m.total_messages + 2 := by
  have hstate : (handle_user_message env m message).2
      = track_conversation (track_conversation m message "") message r := by
    unfold handle_user_message
    simp only [h]
  refine ⟨hstate, ?_⟩
  rw [hstate, track_conversation_total, track_conversation_total]

/-- C5 witness: with an always-succeeding LLM, one turn from the fresh
metrics yields `total_messages = 2`. -/
theorem handle_user_message_tracks_twice_witness :
    (handle_user_message sample_env initial_metrics "hola").2.total_messages = 2 :=
  (handle_user_message_tracks_twice sample_env initial_metrics "hola"
    "¡Hola! Soy BaekhoBot." rfl).2

/-- C6: each tool's `handle` converts any collaborator exception into a
string starting with its fixed Spanish error prefix; since the embedding of
each `handle` is a total function into `String`, no exception propagates to
the caller. -/
theorem tools_convert_exceptions_to_error_strings (env : Env) :
    (∀ (t : ProductSearchArgs) (e : String),
      product_search_collab env t = Except.error e →
        product_search_handle env t = "Error ejecutando búsqueda: " ++ e
        ∧ pyStartsWith (product_search_handle env t) "Error ejecutando búsqueda:" = true)
    ∧ (∀ e : String,
      promotion_search_collab env = Except.error e →
        promotion_search_handle env = "Error obteniendo promociones: " ++ e
        ∧ pyStartsWith (promotion_search_handle env) "Error obteniendo promociones:" = true)
    ∧ (∀ (t : UserHistoryArgs) (e : String),
      user_history_collab env t = Except.error e →
        user_history_handle env t = "Error obteniendo historial: " ++ e
        ∧ pyStartsWith (user_history_handle env t) "Error obteniendo historial:" = true) := by
  refine ⟨fun t e h => ?_, fun e h => ?_, fun t e h => ?_⟩ <;>
    simp only [product_search_handle, promotion_search_handle, user_history_handle, h] <;>
      refine ⟨trivial, ?_⟩ <;>
        · show pyStartsWith (_ ++ e) _ = true
          simp only [pyStartsWith, String.data_append]
          exact hasPrefixChars_append _ _ _ (by decide)

/-- C6 witness: with every collaborator raising, each tool returns its
prefixed error message. -/
theorem tools_error_strings_witness :
    product_search_handle failing_env { query := "balon" }
        = "Error ejecutando búsqueda: connection refused"
    ∧ promotion_search_handle failing_env
        = "Error obteniendo promociones: qdrant timeout"
    ∧ user_history_handle failing_env { user_id := 7 }
        = "Error obteniendo historial: db unavailable" :=
  ⟨((tools_convert_exceptions_to_error_strings failing_env).1
      { query := "balon" } "connection refused" rfl).1,
    ((tools_convert_exceptions_to_error_strings failing_env).2.1
      "qdrant timeout" rfl).1,
    ((tools_convert_exceptions_to_error_strings failing_env).2.2
      { user_id := 7 } "db unavailable" rfl).1⟩

/-- C7: `MainBaekhoAgent.handle_user_message` returns exactly the LLM's
response when the LLM call succeeds, and the fixed Spanish apology string
when it raises; being a total function into `String`, it never propagates an
exception. -/
theorem handle_user_message_response_or_apology (env : Env)
    (m : ConversationMetrics) (message : String) :
    (∃ r, env.llm_response (context_prompt message
          (knowledge_handle_message_fallback env message).1
          (sales_handle_message_fallback message)) = Except.ok r
        ∧ (handle_user_message env m message).1 = r)
    ∨ (∃ e, env.llm_response (context_prompt message
          (knowledge_handle_message_fallback env message).1
          (sales_handle_message_fallback message)) = Except.error e
        ∧ (handle_user_message env m message).1
            = "Lo siento, hubo un error procesando tu consulta. Por favor intenta de nuevo.") := by
  cases h : env.llm_response (context_prompt message
      (knowledge_handle_message_fallback env message).1
      (sales_handle_message_fallback message)) with
  | error e =>
    right
    refine ⟨e, rfl, ?_⟩
    unfold handle_user_message apology_message
    simp only [h]
  | ok r =>
    left
    refine ⟨r, rfl, ?_⟩
    unfold handle_user_message
    simp only [h]

/-- C8: `PromotionSearchTool.handle` is determined by the single collaborator
call `search_similar([0.0]*384, limit=10, filters={type: promocion, activa:
True})`: the query vector has dimensionality exactly 384, two environments
agreeing on that one call produce the same output, and an empty result set
yields the literal no-promotions message. -/
theorem promotion_search_query_shape (env env' : Env)
    (hagree : env.search_similar neutral_vector 10 promotion_filters
        = env'.search_similar neutral_vector 10 promotion_filters) :
    neutral_vector.length = 384
    ∧ promotion_filters
        = [("type", FilterVal.str "promocion"), ("activa", FilterVal.bool true)]
    ∧ promotion_search_handle env = promotion_search_handle env'
    ∧ (env.search_similar neutral_vector 10 promotion_filters = Except.ok ([] : List SearchResult)
        → promotion_search_handle env = "No hay promociones activas en este momento.") := by
  refine ⟨by simp only [neutral_vector, List.length_replicate], rfl, ?_, fun hempty => ?_⟩
  · unfold promotion_search_handle promotion_search_collab
    rw [hagree]
  · unfold promotion_search_handle promotion_search_collab
    simp only [hempty, List.isEmpty_nil, if_pos]

/-- C8 witness: in an environment whose search returns no hits, the tool
returns the literal no-promotions message, and the query vector length is
384. -/
theorem promotion_search_query_shape_witness :
    neutral_vector.length = 384
    ∧ promotion_search_handle sample_env
        = "No hay promociones activas en este momento." :=
  ⟨(promotion_search_query_shape sample_env sample_env rfl).1,
    (promotion_search_query_shape sample_env sample_env rfl).2.2.2 rfl⟩

/-- C3 counterexample: `get_metrics` returns `dict.copy()`, a shallow copy —
the nested lists are shared by reference.  Appending one element through the
returned mapping's `user_satisfaction` entry changes the metrics the agent
itself subsequently observes, refuting the claim that mutating the returned
mapping's nested sequences leaves the internal state unaffected. -/
theorem get_metrics_shared_lists_counterexample :
    (metrics_view analytics_init_dict
        (heap_append analytics_init_heap
          (get_metrics analytics_init_dict analytics_init_heap).1.user_satisfaction_ref
          "externally added")).user_satisfaction
      ≠ (metrics_view analytics_init_dict analytics_init_heap).user_satisfaction := by
  decide

/-- C3 (amended): `get_metrics` leaves the agent's internal state unchanged
and returns a shallow copy of the counters dict: re-binding top-level entries
of the returned dict cannot affect the agent (the copy is a distinct dict
object carrying the same entries), but the nested list objects are shared,
so appending through either returned list reference is visible in the
agent's subsequent internal metrics. -/
theorem get_metrics_shallow_copy (d : MetricsDict) (h : PyHeap) (x : String)
    (hrefs : d.user_satisfaction_ref ≠ d.conversion_indicators_ref) :
    (get_metrics d h).2 = (d, h)
    ∧ (get_metrics d h).1 = d
    ∧ metrics_view d (heap_append h (get_metrics d h).1.user_satisfaction_ref x)
        = { total_messages := d.total_messages
          , user_satisfaction := h.lists d.user_satisfaction_ref ++ [x]
          , conversion_indicators := h.lists d.conversion_indicators_ref }
    ∧ metrics_view d (heap_append h (get_metrics d h).1.conversion_indicators_ref x)
        = { total_messages := d.total_messages
          , user_satisfaction := h.lists d.user_satisfaction_ref
          , conversion_indicators := h.lists d.conversion_indicators_ref ++ [x] } := by
  refine ⟨rfl, rfl, ?_, ?_⟩
  · unfold metrics_view heap_append get_metrics dict_copy
    simp [Ne.symm hrefs]
  · unfold metrics_view heap_append get_metrics dict_copy
    simp [hrefs]

/-- C3 (amended) witness: the shallow-copy behaviour at the freshly
initialised agent state. -/
theorem get_metrics_shallow_copy_witness :
    (get_metrics analytics_init_dict analytics_init_heap).2
        = (analytics_init_dict, analytics_init_heap)
    ∧ (get_metrics analytics_init_dict analytics_init_heap).1 = analytics_init_dict
    ∧ metrics_view analytics_init_dict
        (heap_append analytics_init_heap
          (get_metrics analytics_init_dict analytics_init_heap).1.user_satisfaction_ref "x")
        = { total_messages := analytics_init_dict.total_messages
          , user_satisfaction :=
              analytics_init_heap.lists analytics_init_dict.user_satisfaction_ref ++ ["x"]
          , conversion_indicators :=
              analytics_init_heap.lists analytics_init_dict.conversion_indicators_ref }
    ∧ metrics_view analytics_init_dict
        (heap_append analytics_init_heap
          (get_metrics analytics_init_dict analytics_init_heap).1.conversion_indicators_ref "x")
        = { total_messages := analytics_init_dict.total_messages
          , user_satisfaction :=
              analytics_init_heap.lists analytics_init_dict.user_satisfaction_ref
          , conversion_indicators :=
              analytics_init_heap.lists analytics_init_dict.conversion_indicators_ref ++ ["x"] } :=
  get_metrics_shallow_copy analytics_init_dict analytics_init_heap "x" (by decide)

end SportBot
